import Mathlib

/-!
Verification development for the Makeshop recommendation engine
(`api/recommend.js`).

The engine is embedded shallowly:

* Free-text attribute extraction (`parseSpec`, `parseFeatures`) is driven by
  JavaScript regular expressions.  We embed the exact source patterns as
  abstract syntax (`RE`) and run them with a standard backtracking matcher
  (`matchRE`) implementing leftmost-start, greedy-with-backtracking,
  first-alternative-preferred semantics with numbered capture groups, i.e.
  the semantics of JavaScript `String.prototype.match` without the `g` flag.
* JavaScript numbers obtained from `Number(capturedString)` are modelled by
  `JsNum` (an integer or NaN); every string the source applies `Number` to is
  either an all-digit capture or a keyword capture.
* The scoring function `scoreProduct` computes a double-precision value using
  `Math.log`; transcendental floating point is not embedded.  Every theorem
  about the selector is proved for an arbitrary score function (`ScoreFn`),
  which in particular covers the source's score; the selector logic
  (hard filters, best-so-far fold, deduplication) is embedded exactly.
* `Math.round(x)` on rationals is `round x = ⌊x + 1/2⌋`, matching the
  half-up-towards-plus-infinity behaviour of JavaScript for these magnitudes.
* The profile lookup `base[useCase] || base.office` is an object-literal
  property read: unknown keys resolve through `Object.prototype`, so
  identifiers such as `"constructor"` or `"toString"` produce a truthy
  inherited non-profile (`ProfileVal.protoObj`), the subsequent
  `profile.target[key]` access throws, and the handler's catch branch answers
  the 500 error body (`Response.error`); only genuinely absent keys read
  `undefined` and fall back to the `office` profile.
-/

/-- JavaScript number produced by `Number(string)`: an integer or NaN. -/
inductive JsNum where
  | nan : JsNum
  | num : Int → JsNum
deriving DecidableEq, Repr

/-- Value of an all-digit character list. -/
def digitsVal (l : List Char) : Nat :=
  l.foldl (fun a c => a * 10 + (c.toNat - 48)) 0

/-- JavaScript `\s` / whitespace-trimming class (ASCII whitespace plus the
Unicode space separators, NBSP, BOM and the line separators). -/
def jsWhitespace (c : Char) : Bool :=
  c == ' ' || c == '\t' || c == '\n' || c == '\r' ||
  c.toNat == 0x0B || c.toNat == 0x0C || c.toNat == 0xA0 || c.toNat == 0x1680 ||
  (decide (0x2000 ≤ c.toNat) && decide (c.toNat ≤ 0x200A)) ||
  c.toNat == 0x2028 || c.toNat == 0x2029 || c.toNat == 0x202F ||
  c.toNat == 0x205F || c.toNat == 0x3000 || c.toNat == 0xFEFF

/-- Strip leading and trailing whitespace, as `Number()` does. -/
def jsTrim (l : List Char) : List Char :=
  ((l.dropWhile jsWhitespace).reverse.dropWhile jsWhitespace).reverse

/-- `Number(string)` restricted to the shapes occurring in the source:
empty/whitespace strings give 0, digit strings their value, anything else NaN. -/
def jsNumberOf (l : List Char) : JsNum :=
  let t := jsTrim l
  if t.isEmpty then JsNum.num 0
  else if t.all Char.isDigit then JsNum.num (digitsVal t)
  else JsNum.nan

/-- Multiplication of a JavaScript number by an integer constant. -/
def JsNum.mul (a : JsNum) (k : Int) : JsNum :=
  match a with
  | JsNum.nan => JsNum.nan
  | JsNum.num n => JsNum.num (n * k)

/-- ASCII lower-casing, the case folding relevant to the `/i` flag here. -/
def asciiLower (c : Char) : Char :=
  if 'A' ≤ c ∧ c ≤ 'Z' then Char.ofNat (c.toNat + 32) else c

/-- ASCII upper-casing, modelling `toUpperCase()` on the unit captures. -/
def asciiUpper (c : Char) : Char :=
  if 'a' ≤ c ∧ c ≤ 'z' then Char.ofNat (c.toNat - 32) else c

/-- Case-insensitive character comparison (`/i`). -/
def eqCI (a b : Char) : Bool := asciiLower a == asciiLower b

/-- Capture groups of one regex match: group number with captured text. -/
abbrev Groups := List (Nat × List Char)

/-- Regular-expression abstract syntax covering the source's patterns:
case-insensitive literals, single-character classes, sequencing, preferred
alternation, greedy bounded repetition of a class, greedy star of a class,
and numbered capture groups. -/
inductive RE where
  | lit : List Char → RE
  | cls : (Char → Bool) → RE
  | seq : RE → RE → RE
  | alt : RE → RE → RE
  | rep : (Char → Bool) → Nat → Nat → RE
  | star : (Char → Bool) → RE
  | grp : Nat → RE → RE

/-- Matcher result: remaining input and the captures, if any match. -/
abbrev MRes := Option (List Char × Groups)

/-- Strip a case-insensitive literal from the front of the input. -/
def stripLit : List Char → List Char → Option (List Char)
  | [], s => some s
  | _ :: _, [] => none
  | a :: l, c :: s => if eqCI a c then stripLit l s else none

/-- Length of the maximal prefix of characters in the class. -/
def leadRun (p : Char → Bool) : List Char → Nat
  | [] => 0
  | c :: s => if p c then leadRun p s + 1 else 0

/-- Greedy repetition with backtracking: try dropping `n` characters first,
then fewer, never fewer than `lo`.  Callers pass `n` at most the length of
the class run, so every tried count consumes only class characters. -/
def tryCounts : Nat → Nat → List Char → Groups → (List Char → Groups → MRes) → MRes
  | 0, lo, s, g, k => if lo = 0 then k s g else none
  | n + 1, lo, s, g, k =>
    if n + 1 < lo then none
    else
      match k (s.drop (n + 1)) g with
      | some r => some r
      | none => tryCounts n lo s g k

/-- Backtracking matcher in continuation-passing style: JavaScript regex
semantics (greedy quantifiers, left alternative preferred, backtracking on
continuation failure, captures recorded on the successful path). -/
def matchRE : RE → List Char → Groups → (List Char → Groups → MRes) → MRes
  | RE.lit l, s, g, k =>
    match stripLit l s with
    | some rest => k rest g
    | none => none
  | RE.cls p, s, g, k =>
    match s with
    | [] => none
    | c :: rest => if p c then k rest g else none
  | RE.seq a b, s, g, k => matchRE a s g (fun s1 g1 => matchRE b s1 g1 k)
  | RE.alt a b, s, g, k =>
    match matchRE a s g k with
    | some r => some r
    | none => matchRE b s g k
  | RE.rep p lo hi, s, g, k => tryCounts (min hi (leadRun p s)) lo s g k
  | RE.star p, s, g, k => tryCounts (leadRun p s) 0 s g k
  | RE.grp i r, s, g, k =>
    matchRE r s g (fun s1 g1 => k s1 ((i, s.take (s.length - s1.length)) :: g1))

/-- Attempt a match anchored at the start of `s`; on success return the
matched text (`m[0]`) and the captures. -/
def reAt (r : RE) (s : List Char) : Option (List Char × Groups) :=
  match matchRE r s [] (fun rest g => some (rest, g)) with
  | some (rest, g) => some (s.take (s.length - rest.length), g)
  | none => none

/-- First match scanning start positions left to right (JS `match` without `g`). -/
def reFirstAux (r : RE) : List Char → Option (List Char × Groups)
  | [] => reAt r []
  | c :: tail =>
    match reAt r (c :: tail) with
    | some m => some m
    | none => reFirstAux r tail

/-- `string.match(re)` — first match with captures, or none. -/
def reMatch (r : RE) (s : String) : Option (List Char × Groups) := reFirstAux r s.data

/-- `re.test(string)`. -/
def reTest (r : RE) (s : String) : Bool := (reMatch r s).isSome

/-- `/^.../.test(string)` — anchored test at position 0. -/
def reTestStart (r : RE) (s : String) : Bool := (reAt r s.data).isSome

/-- Captured text of group `i` (empty when absent, like `undefined` under
string coercion and truthiness). -/
def groupStr (g : Groups) (i : Nat) : List Char :=
  match g.find? (fun x => x.1 == i) with
  | some x => x.2
  | none => []

/-- JavaScript `a || b` on strings: empty is falsy. -/
def jsOrL (a b : List Char) : List Char := if a.isEmpty then b else a

/-- Case-insensitive literal pattern. -/
def litR (s : String) : RE := RE.lit s.data

/-- Three-way alternation. -/
def alts3 (a b c : RE) : RE := RE.alt a (RE.alt b c)

/-- Sequence of patterns. -/
def seqR (rs : List RE) : RE := rs.foldr RE.seq (RE.lit [])

/-- `\d`. -/
def isDigitC (c : Char) : Bool := c.isDigit

/-- `[^0-9]`. -/
def notDigitC (c : Char) : Bool := !c.isDigit

/-- Hiragana range `ぁ-ん`. -/
def isHiragana (c : Char) : Bool :=
  decide (0x3041 ≤ c.toNat) && decide (c.toNat ≤ 0x3093)

/-- Katakana range `ァ-ン`. -/
def isKatakana (c : Char) : Bool :=
  decide (0x30A1 ≤ c.toNat) && decide (c.toNat ≤ 0x30F3)

/-- CJK ideograph range `一-龥`. -/
def isKanjiBasic (c : Char) : Bool :=
  decide (0x4E00 ≤ c.toNat) && decide (c.toNat ≤ 0x9FA5)

/-- `[^a-zA-Zぁ-んァ-ン一-龥]`, the gap class of the reversed-order patterns. -/
def memGapC (c : Char) : Bool :=
  !(c.isAlpha || isHiragana c || isKatakana c || isKanjiBasic c)

/-- `[3579]`. -/
def is3579 (c : Char) : Bool := c == '3' || c == '5' || c == '7' || c == '9'

/-- Literal dot, for `\.?`. -/
def isDotC (c : Char) : Bool := c == '.'

/-- `(メモリ|RAM|Memory)`. -/
def memKeywordRE : RE := alts3 (litR "メモリ") (litR "RAM") (litR "Memory")

/-- `/(メモリ|RAM|Memory)[^0-9]{0,10}(\d{1,3})\s*GB/i`. -/
def memRE1 : RE :=
  seqR [RE.grp 1 memKeywordRE, RE.rep notDigitC 0 10, RE.grp 2 (RE.rep isDigitC 1 3),
    RE.star jsWhitespace, litR "GB"]

/-- `/(\d{1,3})\s*GB[^a-zA-Zぁ-んァ-ン一-龥]{0,10}(メモリ|RAM|Memory)/i`. -/
def memRE2 : RE :=
  seqR [RE.grp 1 (RE.rep isDigitC 1 3), RE.star jsWhitespace, litR "GB",
    RE.rep memGapC 0 10, RE.grp 2 memKeywordRE]

/-- `(GB|TB)`. -/
def unitRE : RE := RE.alt (litR "GB") (litR "TB")

/-- `/SSD[^0-9]{0,10}(\d{2,4})\s*(GB|TB)/i`. -/
def ssdRE1 : RE :=
  seqR [litR "SSD", RE.rep notDigitC 0 10, RE.grp 1 (RE.rep isDigitC 2 4),
    RE.star jsWhitespace, RE.grp 2 unitRE]

/-- `/(\d{2,4})\s*(GB|TB)[^a-zA-Zぁ-んァ-ン一-龥]{0,10}SSD/i`. -/
def ssdRE2 : RE :=
  seqR [RE.grp 1 (RE.rep isDigitC 2 4), RE.star jsWhitespace, RE.grp 2 unitRE,
    RE.rep memGapC 0 10, litR "SSD"]

/-- `/(RTX|GTX|Radeon|Arc|GeForce)/i`. -/
def gpuRE : RE :=
  RE.grp 1 (RE.alt (litR "RTX") (RE.alt (litR "GTX")
    (alts3 (litR "Radeon") (litR "Arc") (litR "GeForce"))))

/-- `/HDD/i`. -/
def hddRE : RE := litR "HDD"

/-- `/SSD/i`. -/
def ssdTokRE : RE := litR "SSD"

/-- `/i[3579]-\d{4,5}[A-Z]{0,2}/i` (with `/i`, `[A-Z]` is any ASCII letter). -/
def cpuIntelRE : RE :=
  seqR [litR "i", RE.cls is3579, litR "-", RE.rep isDigitC 4 5, RE.rep Char.isAlpha 0 2]

/-- `/Ryzen\s*[3579]\s*\d{4,5}[A-Z]{0,2}/i`. -/
def cpuRyzenRE : RE :=
  seqR [litR "Ryzen", RE.star jsWhitespace, RE.cls is3579, RE.star jsWhitespace,
    RE.rep isDigitC 4 5, RE.rep Char.isAlpha 0 2]

/-- `/i[3579]-(\d{4,5})/i`. -/
def cpuGenRE : RE := seqR [litR "i", RE.cls is3579, litR "-", RE.grp 1 (RE.rep isDigitC 4 5)]

/-- Pattern `^i[3579]-` with the case-insensitive flag, used anchored. -/
def cpuHeadRE : RE := seqR [litR "i", RE.cls is3579, litR "-"]

/-- Run collapser: `inWs` records whether the previous character was part of a
whitespace run that has already emitted its single space. -/
def collapseWsAux : List Char → Bool → List Char
  | [], _ => []
  | c :: rest, inWs =>
    if jsWhitespace c then
      if inWs then collapseWsAux rest true
      else ' ' :: collapseWsAux rest true
    else c :: collapseWsAux rest false

/-- JavaScript `text.replace` of one-or-more whitespace (global) by a single
space: each maximal whitespace run becomes one space. -/
def collapseWs (l : List Char) : List Char := collapseWsAux l false

/-- Attribute bundle extracted by `parseSpec`. -/
structure SpecInfo where
  memGB : Option JsNum
  ssdGB : Option JsNum
  hasGPU : Bool
  hasHDD : Bool
  cpu : Option String
  cpuGen : Option JsNum
deriving DecidableEq, Repr

/-- `parseSpec(text)` of the source, translated clause by clause. -/
def parseSpec (text : String) : SpecInfo :=
  let t : String := ⟨collapseWs text.data⟩
  let memMatch := (reMatch memRE1 t).orElse fun _ => reMatch memRE2 t
  let memGB := memMatch.map fun m => jsNumberOf (jsOrL (groupStr m.2 2) (groupStr m.2 1))
  let ssdMatch := (reMatch ssdRE1 t).orElse fun _ => reMatch ssdRE2 t
  let ssdGB := ssdMatch.map fun m =>
    let n := jsNumberOf (groupStr m.2 1)
    let unit := (groupStr m.2 2).map asciiUpper
    if unit = "TB".data then n.mul 1024 else n
  let hasHDD := reTest hddRE t && !reTest ssdTokRE t
  let hasGPU := reTest gpuRE t
  let cpuM := (reMatch cpuIntelRE t).orElse fun _ => reMatch cpuRyzenRE t
  let cpu := cpuM.map fun m => (⟨m.1⟩ : String)
  let cpuGen : Option JsNum :=
    match cpu with
    | none => none
    | some c =>
      if reTestStart cpuHeadRE c then
        match reMatch cpuGenRE c with
        | some m =>
          let numl := groupStr m.2 1
          if numl.length == 4 then some (jsNumberOf (numl.take 1))
          else some (jsNumberOf (numl.take 2))
        | none => none
      else none
  { memGB := memGB, ssdGB := ssdGB, hasGPU := hasGPU, hasHDD := hasHDD,
    cpu := cpu, cpuGen := cpuGen }

example : (parseSpec "メモリ 16GB").memGB = some (JsNum.num 16) := by decide
example : (parseSpec "16GB メモリ").memGB = some JsNum.nan := by decide
example : (parseSpec "SSD 2TB").ssdGB = none := by decide
example : (parseSpec "SSD 512GB").ssdGB = some (JsNum.num 512) := by decide
example : (parseSpec "SSD 12TB").ssdGB = some (JsNum.num 12288) := by decide
example : (parseSpec "GeForce RTX").hasGPU = true := by decide
example : (parseSpec "i5-8250U 搭載").cpuGen = some (JsNum.num 8) := by decide

/-- Feature bundle extracted by `parseFeatures`.  The screen size (a decimal
with at most one fractional digit by the capture shape) is stored exactly as
tenths of an inch, an integer; the source stores the same value as a float. -/
structure FeatInfo where
  deviceType : String
  hasCamera : Bool
  hasTenkey : Bool
  inch : Option Int
deriving DecidableEq, Repr

/-- `Number` of a captured decimal of shape digits, optional dot, optional
digit (the capture shape of the screen-size pattern), scaled by ten so the
value is an exact integer: `"15.6"` gives `156`, `"14"` gives `140`. -/
def jsDec10 (l : List Char) : Int :=
  let ip := l.takeWhile fun c => !isDotC c
  let rest := l.dropWhile fun c => !isDotC c
  let fp := rest.drop 1
  (digitsVal ip : Int) * 10 + (if fp.isEmpty then 0 else digitsVal fp)

/-- Laptop-indicating alternation of the source. -/
def laptopRE : RE :=
  RE.alt (litR "ノート") (RE.alt (litR "Laptop") (RE.alt (litR "ThinkPad")
    (RE.alt (litR "LuvBook") (RE.alt (litR "Latitude")
      (alts3 (litR "EliteBook") (litR "Let\x27s note") (litR "レッツノート"))))))

/-- Desktop-indicating alternation of the source. -/
def desktopRE : RE :=
  RE.alt (litR "デスクトップ") (RE.alt (litR "Desktop") (RE.alt (litR "ProDesk")
    (RE.alt (litR "OptiPlex") (RE.alt (litR "SFF") (RE.alt (litR "DM")
      (alts3 (litR "MT") (litR "タワー") (litR "ワークステーション")))))))

/-- Camera alternation `WEBカメラ|Webカメラ|カメラ` with the `i` flag. -/
def cameraRE : RE := alts3 (litR "WEBカメラ") (litR "Webカメラ") (litR "カメラ")

/-- Numeric-keypad keyword. -/
def tenkeyRE : RE := litR "テンキー"

/-- Screen-size pattern: one or two digits, optional dot, optional digit,
optional whitespace, then the localized inch unit. -/
def inchRE : RE :=
  seqR [RE.grp 1 (seqR [RE.rep isDigitC 1 2, RE.rep isDotC 0 1, RE.rep isDigitC 0 1]),
    RE.star jsWhitespace, litR "インチ"]

/-- `parseFeatures(text)` of the source, translated clause by clause. -/
def parseFeatures (text : String) : FeatInfo :=
  let t := text
  let isLaptop := reTest laptopRE t
  let isDesktop := reTest desktopRE t
  let deviceType :=
    if isLaptop && !isDesktop then "laptop"
    else if isDesktop && !isLaptop then "desktop"
    else "any"
  let hasCamera := reTest cameraRE t
  let hasTenkey := reTest tenkeyRE t
  let inch := (reMatch inchRE t).map fun m => jsDec10 (groupStr m.2 1)
  { deviceType := deviceType, hasCamera := hasCamera, hasTenkey := hasTenkey, inch := inch }

example : (parseFeatures "15.6インチ ノート WEBカメラ").deviceType = "laptop" := by decide
example : (parseFeatures "15.6インチ ノート WEBカメラ").hasCamera = true := by decide
example : (parseFeatures "15.6インチ ノート WEBカメラ").inch = some 156 := by decide

/-- Per-device-type baseline target prices of a profile. -/
structure TargetMap where
  laptop : Int
  desktop : Int
  any : Int
deriving DecidableEq, Repr

/-- Minimum acceptable specification of a profile. -/
structure MinSpec where
  mem : Int
  ssd : Int
deriving DecidableEq, Repr

/-- Hard requirements of a profile; a missing key in the source object is
modelled as `false` (the truthiness test `profile.require?.x` fails). -/
structure HardReq where
  camera : Bool
  gpu : Bool
deriving DecidableEq, Repr

/-- Avoidance rules of a profile. -/
structure AvoidRules where
  hddOnly : Bool
  memUnder : Int
deriving DecidableEq, Repr

/-- Static knowledge-table entry for one use case. -/
structure UseCaseProfile where
  label : String
  target : TargetMap
  minSpec : MinSpec
  require : HardReq
  avoid : AvoidRules
deriving DecidableEq, Repr

/-- The `office` profile of the knowledge table. -/
def officeProfile : UseCaseProfile :=
  { label := "事務・普段使い"
    target := { laptop := 22000, desktop := 20000, any := 20000 }
    minSpec := { mem := 8, ssd := 256 }
    require := { camera := false, gpu := false }
    avoid := { hddOnly := true, memUnder := 8 } }

/-- The `zoom` profile of the knowledge table. -/
def zoomProfile : UseCaseProfile :=
  { label := "Zoom・オンライン会議"
    target := { laptop := 25000, desktop := 22000, any := 23000 }
    minSpec := { mem := 8, ssd := 256 }
    require := { camera := true, gpu := false }
    avoid := { hddOnly := true, memUnder := 8 } }

/-- The `creator` profile of the knowledge table. -/
def creatorProfile : UseCaseProfile :=
  { label := "制作・編集（軽〜中）"
    target := { laptop := 45000, desktop := 40000, any := 42000 }
    minSpec := { mem := 16, ssd := 512 }
    require := { camera := false, gpu := false }
    avoid := { hddOnly := true, memUnder := 8 } }

/-- The `game` profile of the knowledge table. -/
def gameProfile : UseCaseProfile :=
  { label := "ゲーム"
    target := { laptop := 70000, desktop := 65000, any := 65000 }
    minSpec := { mem := 16, ssd := 512 }
    require := { camera := false, gpu := true }
    avoid := { hddOnly := true, memUnder := 8 } }

/-- Own property names of `Object.prototype` (V8/Node): for these keys, a
property read on a plain object literal that lacks them as own keys resolves
through the prototype chain to a truthy built-in value instead of
`undefined`. -/
def protoKeys : List String :=
  ["constructor", "hasOwnProperty", "isPrototypeOf", "propertyIsEnumerable",
   "toLocaleString", "toString", "valueOf", "__defineGetter__",
   "__defineSetter__", "__lookupGetter__", "__lookupSetter__", "__proto__"]

/-- Value of the JavaScript expression `base[useCase] || base.office`: either
a genuine profile object, or — when `useCase` names an `Object.prototype`
property — the truthy value inherited through the prototype chain (a built-in
function, or `Object.prototype` itself for `__proto__`), which is not a
profile and defeats the `||` fallback. -/
inductive ProfileVal where
  | prof : UseCaseProfile → ProfileVal
  | protoObj : String → ProfileVal
deriving DecidableEq, Repr

/-- `getProfile(useCase)`: lookup `base[useCase] || base.office` in the
literal table.  The four own keys yield their profiles; an identifier naming
an `Object.prototype` property yields the inherited truthy non-profile (so
the `office` fallback does not apply); every other identifier reads
`undefined` and falls back to the `office` profile. -/
def getProfile (useCase : String) : ProfileVal :=
  if useCase = "office" then ProfileVal.prof officeProfile
  else if useCase = "zoom" then ProfileVal.prof zoomProfile
  else if useCase = "creator" then ProfileVal.prof creatorProfile
  else if useCase = "game" then ProfileVal.prof gameProfile
  else if useCase ∈ protoKeys then ProfileVal.protoObj useCase
  else ProfileVal.prof officeProfile

/-- `clamp(n, a, b) = Math.max(a, Math.min(b, n))`. -/
def clamp (n a b : Int) : Int := max a (min b n)

/-- JavaScript `a || b` on numbers restricted to integers: `0` is falsy. -/
def jsOrInt (a b : Int) : Int := if a = 0 then b else a

/-- `Math.round(t * (num/den))` computed exactly on integers for `den > 0`:
`⌊t·num/den + 1/2⌋ = ⌊(2·num·t + den) / (2·den)⌋` with floor division, i.e.
rounding half towards positive infinity, as `Math.round` does. -/
def jsRoundMul (t num den : Int) : Int := Int.fdiv (2 * num * t + den) (2 * den)

/-- Baseline target resolution of `computeTargetBudget`: the requested device
key when it is `laptop` or `desktop`, otherwise the `any` baseline. -/
def baselineTarget (profile : UseCaseProfile) (devicePref : String) : Int :=
  let key := if devicePref = "laptop" || devicePref = "desktop" then devicePref else "any"
  if key = "laptop" then profile.target.laptop
  else if key = "desktop" then profile.target.desktop
  else profile.target.any

/-- The three tier centers plus the anchored target. -/
structure BudgetTiers where
  target : Int
  enough : Int
  comfort : Int
  headroom : Int
deriving DecidableEq, Repr

/-- `computeTargetBudget(profile, budgetMax, devicePref)` of the source. -/
def computeTargetBudget (profile : UseCaseProfile) (budgetMax : Int)
    (devicePref : String) : BudgetTiers :=
  let baseTarget := baselineTarget profile devicePref
  let target := min (jsOrInt budgetMax baseTarget) baseTarget
  let enough := clamp target 10000 (jsOrInt budgetMax target)
  let c0 := jsRoundMul target 27 20
  let comfort := clamp c0 enough (jsOrInt budgetMax c0)
  let h0 := jsRoundMul target 9 5
  let headroom := clamp h0 comfort (jsOrInt budgetMax h0)
  { target := target, enough := enough, comfort := comfort, headroom := headroom }

example : computeTargetBudget officeProfile 60000 "any" =
    { target := 20000, enough := 20000, comfort := 27000, headroom := 36000 } := by decide
example : computeTargetBudget officeProfile 5000 "any" =
    { target := 5000, enough := 10000, comfort := 10000, headroom := 10000 } := by decide

/-- Catalog row as the handler consumes it (output of the CSV reader). -/
structure Product where
  sku : String
  systemCode : String
  name : String
  description : String
  price : Int
  quantity : Int
  url : String
deriving DecidableEq, Repr

/-- Buyer-facing attribute subset attached to one recommendation. -/
structure RecSpec where
  cpu : Option String
  memGB : Option JsNum
  ssdGB : Option JsNum
  gpu : String
  camera : String
  tenkey : String
  device : String
  inch : Option Int
deriving DecidableEq, Repr

/-- One recommendation record of the response. -/
structure Recommendation where
  tier : String
  name : String
  price : Int
  url : String
  sku : String
  spec : RecSpec
  reason : String
deriving DecidableEq, Repr

/-- Buyer preferences handed to scoring (`reqPref` of the handler). -/
structure ReqPref where
  device : String
  needsCamera : Bool
  needsTenkey : Bool
  screen : Option String
  headroomCenter : Int
deriving DecidableEq, Repr

/-- Score function signature of `scoreProduct(p, spec, feat, useCase,
centerPrice, profile, req)`.  The source computes a double using `Math.log`;
all selector theorems below hold for every function of this signature, in
particular for the source's. -/
abbrev ScoreFn :=
  Product → SpecInfo → FeatInfo → String → Int → UseCaseProfile → ReqPref → ℚ

/-- `buildReason(useCase, bucketLabel, profile, req)` of the source; the
`profile` argument is unused there as well. -/
def buildReason (useCase bucketLabel : String) (profile : UseCaseProfile)
    (req : ReqPref) : String :=
  let ps0 : List String :=
    if useCase = "office" then
      ["普段使いは「8GB＋SSD256GB」で十分にサクサク", "予算は余ってOK、過剰スペックよりコスパ重視で選定"]
    else if useCase = "zoom" then
      ["オンライン会議向けにカメラ表記を優先", "8GB＋SSDで動作のもたつきを回避"]
    else if useCase = "creator" then
      ["制作向けにメモリ/SSD多めを優先", "作業が重いほど快適差が出やすい枠です"]
    else if useCase = "game" then
      ["ゲームはGPUが要、GPU記載を優先", "メモリ16GB以上を優先"]
    else []
  let ps1 := ps0 ++ (if req.device = "laptop" then ["持ち運び前提でノート優先"] else [])
  let ps2 := ps1 ++ (if req.device = "desktop" then ["据え置き前提でデスク優先"] else [])
  let ps3 := ps2 ++ (if bucketLabel = "十分" then ["まずはここで十分枠"] else [])
  let ps4 := ps3 ++ (if bucketLabel = "快適" then ["体感の快適さが上がる枠"] else [])
  let ps5 := ps4 ++ (if bucketLabel = "余裕" then ["長く使いたい人向けの余裕枠"] else [])
  String.intercalate " / " (ps5.take 3)

/-- Text handed to `parseSpec` for one product. -/
def specTextOf (p : Product) : String := p.name ++ "\n" ++ p.description

/-- Recommendation record constructed by `pickOne` for a winning candidate. -/
def buildRec (useCase label : String) (req : ReqPref) (profile : UseCaseProfile)
    (p : Product) (spec : SpecInfo) (feat : FeatInfo) : Recommendation :=
  { tier := label
    name := p.name
    price := p.price
    url := p.url
    sku := p.sku
    spec :=
      { cpu := spec.cpu
        memGB := spec.memGB
        ssdGB := spec.ssdGB
        gpu := if spec.hasGPU then "あり" else "なし"
        camera := if feat.hasCamera then "あり" else "なし"
        tenkey := if feat.hasTenkey then "あり" else "なし"
        device := feat.deviceType
        inch := feat.inch }
    reason := buildReason useCase label profile req }

/-- A candidate passes the hard filter of `pickOne`: not skipped by a required
camera nor by a required discrete GPU. -/
def survives (profile : UseCaseProfile) (p : Product) : Bool :=
  (!profile.require.camera || (parseFeatures p.name).hasCamera) &&
  (!profile.require.gpu || (parseSpec (specTextOf p)).hasGPU)

/-- State of the best-so-far scan: the candidate with its score and extracted
bundles, plus `bestScore` (initially `-1e9`). -/
abbrev PickSt := Option (Product × ℚ × SpecInfo × FeatInfo) × ℚ

/-- Loop body of `pickOne`: skip hard-filtered candidates, otherwise score
and keep the candidate when it strictly improves `bestScore`. -/
def pickStep (score : ScoreFn) (profile : UseCaseProfile) (useCase : String)
    (req : ReqPref) (centerPrice : Int) (acc : PickSt) (p : Product) : PickSt :=
  let spec := parseSpec (specTextOf p)
  let feat := parseFeatures p.name
  if profile.require.camera && !feat.hasCamera then acc
  else if profile.require.gpu && !spec.hasGPU then acc
  else
    let sc := score p spec feat useCase centerPrice profile req
    if sc > acc.2 then (some (p, sc, spec, feat), sc) else acc

/-- `pickOne(centerPrice, label)` of the source, scanning the eligible pool. -/
def pickOne (score : ScoreFn) (profile : UseCaseProfile) (useCase : String)
    (req : ReqPref) (all : List Product) (centerPrice : Int) (label : String) :
    Option Recommendation :=
  let st := all.foldl (pickStep score profile useCase req centerPrice)
    (none, -(1000000000 : ℚ))
  match st.1 with
  | none => none
  | some (p, _, spec, feat) => some (buildRec useCase label req profile p spec feat)

/-- Request body after JSON decoding; absent fields are `none`. -/
structure ReqBody where
  useCase : Option String
  budget : Option Int
  device : Option String
  needsCamera : Bool
  needsTenkey : Bool
  screen : Option String
deriving DecidableEq, Repr

/-- JavaScript `a || b` for an optional string: absent and empty are falsy. -/
def jsOrSt (a : Option String) (b : String) : String :=
  match a with
  | some s => if s = "" then b else s
  | none => b

/-- `String(body.useCase || "office")`. -/
def reqUseCase (b : ReqBody) : String := jsOrSt b.useCase "office"

/-- `Number(body.budget ?? 60000)`. -/
def reqBudget (b : ReqBody) : Int := b.budget.getD 60000

/-- `String(body.device || "any")`. -/
def reqDevice (b : ReqBody) : String := jsOrSt b.device "any"

/-- `body.screen || null`. -/
def reqScreen (b : ReqBody) : Option String :=
  match b.screen with
  | some s => if s = "" then none else some s
  | none => none

/-- `const profile = getProfile(useCase)` of the handler. -/
def profileOf (b : ReqBody) : ProfileVal := getProfile (reqUseCase b)

/-- The request's profile when the lookup produced an actual profile; `none`
when it produced a prototype-inherited non-profile, in which case the
handler's very next step (`profile.target[key]` in `computeTargetBudget`)
throws a TypeError. -/
def resolvedProfile (b : ReqBody) : Option UseCaseProfile :=
  match profileOf b with
  | ProfileVal.prof p => some p
  | ProfileVal.protoObj _ => none

/-- Tier centers resolved for the request.  Meaningful when the profile
lookup resolved; on a non-profile the handler throws inside
`computeTargetBudget` before any center exists, and `recommendCore` takes the
error branch without reading this value (the `office` fallback here is a
total-function placeholder only). -/
def centersOf (b : ReqBody) : BudgetTiers :=
  computeTargetBudget ((resolvedProfile b).getD officeProfile) (reqBudget b)
    (reqDevice b)

/-- The `reqPref` record of the handler. -/
def reqPrefOf (b : ReqBody) : ReqPref :=
  { device := reqDevice b
    needsCamera := b.needsCamera
    needsTenkey := b.needsTenkey
    screen := reqScreen b
    headroomCenter := (centersOf b).headroom }

/-- The eligible pool `all`: in stock, positive price, within the ceiling. -/
def eligibleRows (rows : List Product) (b : ReqBody) : List Product :=
  ((rows.filter fun p => p.quantity > 0).filter fun p => p.price > 0).filter
    fun p => p.price ≤ reqBudget b

/-- One tier evaluation of the handler.  When the profile lookup yields a
non-profile there is no pick: the handler throws before reaching the tiers,
so no tier ever produces a recommendation. -/
def tierPick (score : ScoreFn) (rows : List Product) (b : ReqBody)
    (center : Int) (label : String) : Option Recommendation :=
  match resolvedProfile b with
  | none => none
  | some profile =>
    pickOne score profile (reqUseCase b) (reqPrefOf b) (eligibleRows rows b)
      center label

/-- The three tier picks in order, dropping the `null`s (`if (!x) continue`). -/
def picksOf (score : ScoreFn) (rows : List Product) (b : ReqBody) :
    List Recommendation :=
  [tierPick score rows b (centersOf b).enough "十分",
   tierPick score rows b (centersOf b).comfort "快適",
   tierPick score rows b (centersOf b).headroom "余裕"].filterMap id

/-- Composite dedup key `x.sku || x.url || x.name`. -/
def recKey (x : Recommendation) : String :=
  if x.sku ≠ "" then x.sku else if x.url ≠ "" then x.url else x.name

/-- Dedup loop of the handler: keep a pick whose key is unseen, in order. -/
def dedupByKey : List Recommendation → List String → List Recommendation
  | [], _ => []
  | x :: rest, seen =>
    if recKey x ∈ seen then dedupByKey rest seen
    else x :: dedupByKey rest (recKey x :: seen)

/-- Response metadata (`meta` of the handler). -/
structure RespMeta where
  useCase : String
  useCaseLabel : String
  budgetMax : Int
  device : String
  pricing : BudgetTiers
  note : String
deriving DecidableEq, Repr

/-- Body of the 200-status success JSON (`{ok:true, meta, products}`). -/
structure SuccessBody where
  meta : RespMeta
  products : List Recommendation
deriving DecidableEq, Repr

/-- Engine response: either the 200-status success body, or the 500-status
error body (`{ok:false, error:String(e)}`) produced by the handler's catch
branch when the request processing throws. -/
inductive Response where
  | success : SuccessBody → Response
  | error : String → Response
deriving DecidableEq, Repr

/-- The `ok` flag of the response JSON. -/
def Response.ok : Response → Bool
  | Response.success _ => true
  | Response.error _ => false

/-- The product list of the response; the error body carries none. -/
def Response.products : Response → List Recommendation
  | Response.success body => body.products
  | Response.error _ => []

/-- The handler body from request decoding to the JSON payload, with the
catalog passed in already materialized.  When the profile lookup produced a
prototype-inherited non-profile, `computeTargetBudget` throws a TypeError
(`profile.target` is `undefined`), the catch branch answers the 500 error
body; otherwise the success path runs. -/
def recommendCore (score : ScoreFn) (rows : List Product) (b : ReqBody) :
    Response :=
  match resolvedProfile b with
  | none => Response.error "TypeError"
  | some profile =>
    Response.success
      { meta :=
          { useCase := reqUseCase b
            useCaseLabel := profile.label
            budgetMax := reqBudget b
            device := reqDevice b
            pricing := centersOf b
            note :=
              if reqUseCase b = "office" then
                "普段使いは予算を使い切らなくてOK。2万円前後を中心に“十分/快適/余裕”で提案します。"
              else "用途に合わせて“十分/快適/余裕”で提案します。" }
        products := dedupByKey (picksOf score rows b) [] }

/-- Constant score used to instantiate selector theorems on concrete data. -/
def score0 : ScoreFn := fun _ _ _ _ _ _ _ => 0

/-- Placeholder recommendation for `Option.getD`. -/
def defaultRec : Recommendation :=
  { tier := "", name := "", price := 0, url := "", sku := ""
    spec := { cpu := none, memGB := none, ssdGB := none, gpu := "", camera := ""
              tenkey := "", device := "", inch := none }
    reason := "" }

/-- Stock GPU-bearing product used in witnesses. -/
def pGpu : Product :=
  { sku := "G1", systemCode := "G1", name := "RTX PC", description := ""
    price := 50000, quantity := 1, url := "u1" }

/-- Stock plain product (no GPU, no camera) used in witnesses. -/
def pPlain : Product :=
  { sku := "P1", systemCode := "P1", name := "事務PC", description := ""
    price := 20000, quantity := 1, url := "u2" }

/-- Default request body (all fields absent). -/
def bDefault : ReqBody :=
  { useCase := none, budget := none, device := none
    needsCamera := false, needsTenkey := false, screen := none }

/-- Request body selecting the `game` use case. -/
def bGame : ReqBody :=
  { useCase := some "game", budget := none, device := none
    needsCamera := false, needsTenkey := false, screen := none }

/-- Request body whose use-case identifier collides with an
`Object.prototype` property name. -/
def bProto : ReqBody :=
  { useCase := some "constructor", budget := none, device := none
    needsCamera := false, needsTenkey := false, screen := none }

example :
    (recommendCore score0 [pPlain] bDefault).products =
      [buildRec "office" "十分" (reqPrefOf bDefault) officeProfile pPlain
        (parseSpec (specTextOf pPlain)) (parseFeatures pPlain.name)] := by decide
example : (recommendCore score0 [pPlain] bGame).products = [] := by decide
example : (recommendCore score0 [pPlain] bGame).ok = true := by decide
example : (recommendCore score0 [pPlain] bProto).ok = false := by decide
example :
    pickOne score0 gameProfile "game" (reqPrefOf bGame) [pGpu] 20000 "十分" =
      some (buildRec "game" "十分" (reqPrefOf bGame) gameProfile pGpu
        (parseSpec (specTextOf pGpu)) (parseFeatures pGpu.name)) := by decide

/-- The lower clamp bound is always attained or exceeded. -/
theorem clamp_lower_le (n a b : Int) : a ≤ clamp n a b := le_max_left a (min b n)

/-- The `enough` center never drops below the hard floor of 10000. -/
theorem enough_ge_floor (profile : UseCaseProfile) (budgetMax : Int) (dev : String) :
    10000 ≤ (computeTargetBudget profile budgetMax dev).enough := by
  simp only [computeTargetBudget]
  exact clamp_lower_le _ _ _

/-- Successive tier centers are monotone: each clamp lower-bounds at the
previous tier. -/
theorem tiers_mono (profile : UseCaseProfile) (budgetMax : Int) (dev : String) :
    (computeTargetBudget profile budgetMax dev).enough ≤
        (computeTargetBudget profile budgetMax dev).comfort ∧
      (computeTargetBudget profile budgetMax dev).comfort ≤
        (computeTargetBudget profile budgetMax dev).headroom := by
  simp only [computeTargetBudget]
  exact ⟨clamp_lower_le _ _ _, clamp_lower_le _ _ _⟩

/-- Characterization of survival in terms of the two skip conditions. -/
theorem survives_iff (profile : UseCaseProfile) (p : Product) :
    survives profile p = true ↔
      ((profile.require.camera && !(parseFeatures p.name).hasCamera) = false ∧
       (profile.require.gpu && !(parseSpec (specTextOf p)).hasGPU) = false) := by
  unfold survives
  generalize profile.require.camera = rc
  generalize (parseFeatures p.name).hasCamera = fc
  generalize profile.require.gpu = rg
  generalize (parseSpec (specTextOf p)).hasGPU = sg
  cases rc <;> cases fc <;> cases rg <;> cases sg <;> simp

/-- A hard-filtered candidate leaves the scan state untouched. -/
theorem pickStep_skip (score : ScoreFn) (profile : UseCaseProfile)
    (useCase : String) (req : ReqPref) (center : Int) (acc : PickSt) (p : Product)
    (h : survives profile p = false) :
    pickStep score profile useCase req center acc p = acc := by
  simp only [pickStep]
  by_cases h1 : (profile.require.camera && !(parseFeatures p.name).hasCamera) = true
  · rw [if_pos h1]
  · rw [if_neg h1]
    by_cases h2 : (profile.require.gpu && !(parseSpec (specTextOf p)).hasGPU) = true
    · rw [if_pos h2]
    · exfalso
      have hs := (survives_iff profile p).mpr
        ⟨Bool.eq_false_iff.mpr h1, Bool.eq_false_iff.mpr h2⟩
      rw [hs] at h
      exact Bool.noConfusion h

/-- Each loop step either keeps the state or installs the current candidate,
which then passed the hard filter. -/
theorem pickStep_result (score : ScoreFn) (profile : UseCaseProfile)
    (useCase : String) (req : ReqPref) (center : Int) (acc : PickSt) (p : Product) :
    pickStep score profile useCase req center acc p = acc ∨
    (pickStep score profile useCase req center acc p =
        (some (p,
            score p (parseSpec (specTextOf p)) (parseFeatures p.name) useCase center profile req,
            parseSpec (specTextOf p), parseFeatures p.name),
          score p (parseSpec (specTextOf p)) (parseFeatures p.name) useCase center profile req) ∧
      survives profile p = true) := by
  simp only [pickStep]
  by_cases h1 : (profile.require.camera && !(parseFeatures p.name).hasCamera) = true
  · rw [if_pos h1]
    exact Or.inl rfl
  · rw [if_neg h1]
    by_cases h2 : (profile.require.gpu && !(parseSpec (specTextOf p)).hasGPU) = true
    · rw [if_pos h2]
      exact Or.inl rfl
    · rw [if_neg h2]
      by_cases h3 : score p (parseSpec (specTextOf p)) (parseFeatures p.name)
          useCase center profile req > acc.2
      · rw [if_pos h3]
        refine Or.inr ⟨rfl, ?_⟩
        exact (survives_iff profile p).mpr
          ⟨Bool.eq_false_iff.mpr h1, Bool.eq_false_iff.mpr h2⟩
      · rw [if_neg h3]
        exact Or.inl rfl

/-- Invariant of the scan state: an installed candidate comes from the pool,
carries its own extracted bundles, and passed the hard filter. -/
def pickInv (profile : UseCaseProfile) (pool : List Product) (st : PickSt) : Prop :=
  ∀ p sc spec feat, st.1 = some (p, sc, spec, feat) →
    p ∈ pool ∧ spec = parseSpec (specTextOf p) ∧ feat = parseFeatures p.name ∧
      survives profile p = true

/-- The invariant is preserved by the whole fold. -/
theorem pickInv_foldl (score : ScoreFn) (profile : UseCaseProfile)
    (useCase : String) (req : ReqPref) (center : Int) (pool : List Product) :
    ∀ (l : List Product) (st : PickSt), pickInv profile pool st →
      (∀ q ∈ l, q ∈ pool) →
      pickInv profile pool (l.foldl (pickStep score profile useCase req center) st) := by
  intro l
  induction l with
  | nil => intro st h _; simpa using h
  | cons x xs ih =>
    intro st h hsub
    simp only [List.foldl_cons]
    apply ih
    · rcases pickStep_result score profile useCase req center st x with heq | ⟨heq, hs⟩
      · rw [heq]; exact h
      · rw [heq]
        intro p sc spec feat hsome
        simp only [Option.some.injEq, Prod.mk.injEq] at hsome
        obtain ⟨rfl, rfl, rfl, rfl⟩ := hsome
        exact ⟨hsub x (List.mem_cons_self x xs), rfl, rfl, hs⟩
    · intro q hq; exact hsub q (List.mem_cons_of_mem _ hq)

/-- A successful pick is the record built from some surviving pool member. -/
theorem pickOne_some (score : ScoreFn) (profile : UseCaseProfile)
    (useCase : String) (req : ReqPref) (all : List Product) (center : Int)
    (label : String) (rec : Recommendation)
    (h : pickOne score profile useCase req all center label = some rec) :
    ∃ p ∈ all, survives profile p = true ∧
      rec = buildRec useCase label req profile p (parseSpec (specTextOf p))
        (parseFeatures p.name) := by
  simp only [pickOne] at h
  have hinv := pickInv_foldl score profile useCase req center all all
    ((none : Option (Product × ℚ × SpecInfo × FeatInfo)), -(1000000000 : ℚ))
    (by intro p sc spec feat hsome; simp at hsome) (fun q hq => hq)
  cases hst : (all.foldl (pickStep score profile useCase req center)
      ((none : Option (Product × ℚ × SpecInfo × FeatInfo)), -(1000000000 : ℚ))).1 with
  | none => rw [hst] at h; simp at h
  | some best =>
    obtain ⟨p, sc, spec, feat⟩ := best
    rw [hst] at h
    simp only [Option.some.injEq] at h
    obtain ⟨hp, hspec, hfeat, hs⟩ := hinv p sc spec feat hst
    subst hspec
    subst hfeat
    exact ⟨p, hp, hs, h.symm⟩

/-- When every pool member is hard-filtered, the tier yields none. -/
theorem pickOne_none (score : ScoreFn) (profile : UseCaseProfile)
    (useCase : String) (req : ReqPref) (all : List Product) (center : Int)
    (label : String) (h : ∀ p ∈ all, survives profile p = false) :
    pickOne score profile useCase req all center label = none := by
  have hfold : ∀ (l : List Product) (st : PickSt), (∀ p ∈ l, survives profile p = false) →
      l.foldl (pickStep score profile useCase req center) st = st := by
    intro l
    induction l with
    | nil => intro st _; rfl
    | cons x xs ih =>
      intro st hl
      simp only [List.foldl_cons]
      rw [pickStep_skip score profile useCase req center st x
        (hl x (List.mem_cons_self x xs))]
      exact ih st fun p hp => hl p (List.mem_cons_of_mem _ hp)
  simp only [pickOne]
  rw [hfold all _ h]

/-- Deduplication only drops picks: the result is a sublist of the input. -/
theorem dedupByKey_sublist :
    ∀ (l : List Recommendation) (seen : List String),
      List.Sublist (dedupByKey l seen) l := by
  intro l
  induction l with
  | nil => intro seen; simp [dedupByKey]
  | cons x rest ih =>
    intro seen
    simp only [dedupByKey]
    split
    · exact List.Sublist.cons x (ih seen)
    · exact List.Sublist.cons₂ x (ih (recKey x :: seen))

/-- Deduplicated picks are picks. -/
theorem dedupByKey_mem {r : Recommendation} {l : List Recommendation}
    {seen : List String} (h : r ∈ dedupByKey l seen) : r ∈ l :=
  (dedupByKey_sublist l seen).subset h

/-- Deduplication output avoids the seen keys and has pairwise distinct keys. -/
theorem dedupByKey_keys :
    ∀ (l : List Recommendation) (seen : List String),
      (∀ r ∈ dedupByKey l seen, recKey r ∉ seen) ∧
      (dedupByKey l seen).Pairwise (fun a b => recKey a ≠ recKey b) := by
  intro l
  induction l with
  | nil => intro seen; simp [dedupByKey]
  | cons x rest ih =>
    intro seen
    simp only [dedupByKey]
    split
    · exact ih seen
    · rename_i hnot
      obtain ⟨h1, h2⟩ := ih (recKey x :: seen)
      refine ⟨?_, ?_⟩
      · intro r hr
        rcases List.mem_cons.mp hr with rfl | hr'
        · exact hnot
        · intro hmem
          exact h1 r hr' (List.mem_cons_of_mem _ hmem)
      · refine List.Pairwise.cons ?_ h2
        intro r hr heq
        exact h1 r hr (by rw [← heq]; exact List.mem_cons_self _ _)

/-- Membership in the tier-ordered pick list is a successful tier pick. -/
theorem mem_picksOf {score : ScoreFn} {rows : List Product} {b : ReqBody}
    {rec : Recommendation} (h : rec ∈ picksOf score rows b) :
    tierPick score rows b (centersOf b).enough "十分" = some rec ∨
    tierPick score rows b (centersOf b).comfort "快適" = some rec ∨
    tierPick score rows b (centersOf b).headroom "余裕" = some rec := by
  simp only [picksOf, List.mem_filterMap, List.mem_cons, List.mem_singleton,
    List.not_mem_nil, or_false, id] at h
  obtain ⟨o, ho, hid⟩ := h
  rcases ho with rfl | rfl | rfl
  · exact Or.inl hid
  · exact Or.inr (Or.inl hid)
  · exact Or.inr (Or.inr hid)

/-- Eligibility unfolded: in the catalog, in stock, positive price, within
the ceiling. -/
theorem mem_eligibleRows {p : Product} {rows : List Product} {b : ReqBody} :
    p ∈ eligibleRows rows b ↔
      p ∈ rows ∧ 0 < p.quantity ∧ 0 < p.price ∧ p.price ≤ reqBudget b := by
  simp only [eligibleRows, List.mem_filter, decide_eq_true_eq, gt_iff_lt]
  tauto

/-- Unfolding of one tier evaluation into the generic pick lemma: a
successful pick entails that the profile lookup resolved. -/
theorem tierPick_some_src {score : ScoreFn} {rows : List Product} {b : ReqBody}
    {center : Int} {label : String} {rec : Recommendation}
    (h : tierPick score rows b center label = some rec) :
    ∃ prof, resolvedProfile b = some prof ∧
      ∃ p ∈ eligibleRows rows b, survives prof p = true ∧
        rec = buildRec (reqUseCase b) label (reqPrefOf b) prof p
          (parseSpec (specTextOf p)) (parseFeatures p.name) := by
  simp only [tierPick] at h
  cases hres : resolvedProfile b with
  | none => rw [hres] at h; simp at h
  | some prof =>
    rw [hres] at h
    exact ⟨prof, rfl, pickOne_some _ _ _ _ _ _ _ rec h⟩

/-- Product list of the response when the profile lookup resolved. -/
theorem recommendCore_products_resolved {score : ScoreFn} {rows : List Product}
    {b : ReqBody} {prof : UseCaseProfile} (h : resolvedProfile b = some prof) :
    (recommendCore score rows b).products =
      dedupByKey (picksOf score rows b) [] := by
  simp only [recommendCore, h, Response.products]

/-- Product list of the response when the profile lookup hit the prototype
chain: the handler answers the error body, which carries no products. -/
theorem recommendCore_products_junk {score : ScoreFn} {rows : List Product}
    {b : ReqBody} (h : resolvedProfile b = none) :
    (recommendCore score rows b).products = [] := by
  simp only [recommendCore, h, Response.products]

/-- Reduction of the three-slot pick list on successful picks. -/
theorem filterMap_id_three (a b c : Recommendation) :
    ([some a, some b, some c] : List (Option Recommendation)).filterMap id =
      [a, b, c] := rfl

/-- C1: the claim asserts that `parseSpec` yields non-negative `memGB` and
`ssdGB` whenever present, and 2048 for a 2TB storage mention next to an SSD
keyword.  The code disagrees at concrete inputs: a 2TB mention is not matched
at all (the storage pattern requires at least two digits), and a
number-before-keyword memory mention produces NaN (the code applies `Number`
to `memMatch[2] || memMatch[1]`, which in the reversed pattern selects the
captured keyword).  A well-formed input shows the extractor otherwise works. -/
theorem claim_C1_parseSpec_eval :
    (parseSpec "SSD 2TB").ssdGB = none ∧
    (parseSpec "16GB メモリ").memGB = some JsNum.nan ∧
    (parseSpec "SSD 512GB").ssdGB = some (JsNum.num 512) ∧
    (parseSpec "SSD 12TB").ssdGB = some (JsNum.num 12288) := by decide

/-- C2: the claim asserts that both keyword/number orders extract the matched
integer itself, e.g. 16 for `"16GB メモリ"`.  The keyword-first order does
extract the number, but the reversed order yields NaN, because
`Number(memMatch[2] || memMatch[1])` is applied to the keyword capture. -/
theorem claim_C2_memGB_eval :
    (parseSpec "メモリ 16GB").memGB = some (JsNum.num 16) ∧
    (parseSpec "16GB メモリ").memGB = some JsNum.nan ∧
    (parseSpec "16GB メモリ").memGB ≠ some (JsNum.num 16) := by decide

/-- C3 counterexample: with a zero buyer ceiling (`budgetMax = 0`, a falsy
number), the code falls back to the baseline (`budgetMax || baseTarget`), so
the target is the office baseline 20000, not `min 0 20000 = 0`. -/
theorem claim_C3_counterexample :
    (computeTargetBudget officeProfile 0 "any").target ≠
      min 0 (baselineTarget officeProfile "any") := by decide

/-- C3 (amended): for every profile, every nonzero (truthy) buyer ceiling and
every device preference, the target equals `min(budgetMax, baseline)` and in
particular never exceeds the ceiling; the `budgetMax = 0` case instead uses
the baseline, as the counterexample shows. -/
theorem claim_C3_target_min (profile : UseCaseProfile) (budgetMax : Int)
    (dev : String) (h : budgetMax ≠ 0) :
    (computeTargetBudget profile budgetMax dev).target =
        min budgetMax (baselineTarget profile dev) ∧
      (computeTargetBudget profile budgetMax dev).target ≤ budgetMax := by
  have h1 : (computeTargetBudget profile budgetMax dev).target =
      min budgetMax (baselineTarget profile dev) := by
    simp only [computeTargetBudget, jsOrInt, if_neg h]
  refine ⟨h1, ?_⟩
  rw [h1]
  exact min_le_left _ _

/-- C3 witness: the amended statement at the creator profile, ceiling 30000,
laptop preference. -/
theorem claim_C3_witness :
    (computeTargetBudget creatorProfile 30000 "laptop").target =
        min 30000 (baselineTarget creatorProfile "laptop") ∧
      (computeTargetBudget creatorProfile 30000 "laptop").target ≤ 30000 :=
  claim_C3_target_min creatorProfile 30000 "laptop" (by decide)

/-- C4 counterexample: `"constructor"` lies outside the enumerated use-case
set, yet `getProfile` does not return the office profile for it — the
object-literal lookup resolves it through `Object.prototype` to a truthy
non-profile, so the `||` fallback never fires. -/
theorem claim_C4_counterexample :
    getProfile "constructor" ≠ ProfileVal.prof officeProfile := by decide

/-- C4 (amended): `getProfile` is total, and for any identifier outside the
enumerated set {office, zoom, creator, game} that is not an
`Object.prototype` property name it returns exactly the office profile; for
an `Object.prototype` property name it returns the truthy inherited
non-profile, and the handler subsequently fails — the response is the error
body (`ok = false`), not a recommendation list. -/
theorem claim_C4_getProfile_total (u : String) :
    ((∃ p, getProfile u = ProfileVal.prof p) ∨
      getProfile u = ProfileVal.protoObj u) ∧
    (u ≠ "office" → u ≠ "zoom" → u ≠ "creator" → u ≠ "game" →
      u ∉ protoKeys → getProfile u = ProfileVal.prof officeProfile) ∧
    (u ∈ protoKeys →
      getProfile u = ProfileVal.protoObj u ∧
      ∀ (score : ScoreFn) (rows : List Product) (body : ReqBody),
        reqUseCase body = u → (recommendCore score rows body).ok = false) := by
  refine ⟨?_, ?_, ?_⟩
  · unfold getProfile
    by_cases h1 : u = "office" <;> by_cases h2 : u = "zoom" <;>
      by_cases h3 : u = "creator" <;> by_cases h4 : u = "game" <;>
      by_cases h5 : u ∈ protoKeys <;>
      simp [h1, h2, h3, h4, h5]
  · intro h1 h2 h3 h4 h5
    simp [getProfile, h1, h2, h3, h4, h5]
  · intro hu
    have hne : u ≠ "office" ∧ u ≠ "zoom" ∧ u ≠ "creator" ∧ u ≠ "game" := by
      fin_cases hu <;> exact ⟨by decide, by decide, by decide, by decide⟩
    have hget : getProfile u = ProfileVal.protoObj u := by
      simp [getProfile, hne.1, hne.2.1, hne.2.2.1, hne.2.2.2, hu]
    refine ⟨hget, ?_⟩
    intro score rows body hbody
    have hres : resolvedProfile body = none := by
      simp [resolvedProfile, profileOf, hbody, hget]
    simp [recommendCore, hres, Response.ok]

/-- C4 witness: a genuinely absent identifier falls back to the office
profile, while `"constructor"` yields the inherited non-profile and makes the
handler answer the error body. -/
theorem claim_C4_witness :
    getProfile "notebook" = ProfileVal.prof officeProfile ∧
    getProfile "constructor" = ProfileVal.protoObj "constructor" ∧
    (recommendCore score0 [pPlain] bProto).ok = false := by
  refine ⟨(claim_C4_getProfile_total "notebook").2.1 (by decide) (by decide)
    (by decide) (by decide) (by decide), ?_, ?_⟩
  · exact ((claim_C4_getProfile_total "constructor").2.2 (by decide)).1
  · exact ((claim_C4_getProfile_total "constructor").2.2 (by decide)).2 score0
      [pPlain] bProto (by decide)

/-- C5: for every profile, ceiling and device preference, the three tier
centers satisfy `enough ≤ comfort ≤ headroom`, by the clamp construction. -/
theorem claim_C5_tiers_monotone (profile : UseCaseProfile) (budgetMax : Int)
    (dev : String) :
    (computeTargetBudget profile budgetMax dev).enough ≤
        (computeTargetBudget profile budgetMax dev).comfort ∧
      (computeTargetBudget profile budgetMax dev).comfort ≤
        (computeTargetBudget profile budgetMax dev).headroom :=
  tiers_mono profile budgetMax dev

/-- C6: for every score function, when the profile requires a discrete GPU
(respectively a camera), any recommendation returned by `pickOne` is built
from a pool candidate whose extracted attributes include a detected GPU
(respectively camera) — the filter is applied before scoring — and `pickOne`
returns none when no candidate survives the hard filter. -/
theorem claim_C6_hard_filter (score : ScoreFn) (profile : UseCaseProfile)
    (useCase : String) (req : ReqPref) (all : List Product) (center : Int)
    (label : String) :
    (∀ rec, pickOne score profile useCase req all center label = some rec →
      ((profile.require.gpu = true → ∃ p ∈ all,
          rec.name = p.name ∧ rec.price = p.price ∧
          (parseSpec (specTextOf p)).hasGPU = true ∧ rec.spec.gpu = "あり") ∧
       (profile.require.camera = true → ∃ p ∈ all,
          rec.name = p.name ∧ rec.price = p.price ∧
          (parseFeatures p.name).hasCamera = true ∧ rec.spec.camera = "あり"))) ∧
    ((∀ p ∈ all, survives profile p = false) →
      pickOne score profile useCase req all center label = none) := by
  constructor
  · intro rec hrec
    obtain ⟨p, hp, hs, rfl⟩ :=
      pickOne_some score profile useCase req all center label rec hrec
    rw [survives_iff] at hs
    obtain ⟨hcam, hgpu⟩ := hs
    constructor
    · intro hreq
      have hg : (parseSpec (specTextOf p)).hasGPU = true := by
        rw [hreq] at hgpu
        revert hgpu
        cases (parseSpec (specTextOf p)).hasGPU <;> simp
      exact ⟨p, hp, rfl, rfl, hg, by simp [buildRec, hg]⟩
    · intro hreq
      have hc : (parseFeatures p.name).hasCamera = true := by
        rw [hreq] at hcam
        revert hcam
        cases (parseFeatures p.name).hasCamera <;> simp
      exact ⟨p, hp, rfl, rfl, hc, by simp [buildRec, hc]⟩
  · exact pickOne_none score profile useCase req all center label

/-- Recommendation produced for the GPU-bearing stock product, used by the
C6 witness. -/
def recGpuW : Recommendation :=
  (pickOne score0 gameProfile "game" (reqPrefOf bGame) [pGpu] 20000 "十分").getD
    defaultRec

/-- C6 witness: under the game profile the returned pick carries a detected
GPU, and under the zoom profile a pool with no camera-equipped item yields
none. -/
theorem claim_C6_witness :
    recGpuW.spec.gpu = "あり" ∧
    pickOne score0 zoomProfile "zoom" (reqPrefOf bDefault) [pPlain] 20000 "十分" =
      none := by
  constructor
  · obtain ⟨p, hp, hname, hprice, hg, hrec⟩ :=
      ((claim_C6_hard_filter score0 gameProfile "game" (reqPrefOf bGame) [pGpu]
        20000 "十分").1 recGpuW (by decide)).1 rfl
    exact hrec
  · exact (claim_C6_hard_filter score0 zoomProfile "zoom" (reqPrefOf bDefault)
      [pPlain] 20000 "十分").2
      (by
        intro p hp
        simp only [List.mem_singleton] at hp
        subst hp
        decide)

/-- C7: every recommendation in the final response comes from a catalog row
of the eligible pool: positive quantity, positive price, price within the
buyer's ceiling, and the recommendation carries that row's identity. -/
theorem claim_C7_eligible (score : ScoreFn) (rows : List Product) (b : ReqBody) :
    ∀ rec ∈ (recommendCore score rows b).products, ∃ p ∈ rows,
      rec.name = p.name ∧ rec.price = p.price ∧ rec.sku = p.sku ∧
      rec.url = p.url ∧ 0 < p.quantity ∧ 0 < rec.price ∧
      rec.price ≤ reqBudget b := by
  intro rec hrec
  cases hres : resolvedProfile b with
  | none =>
    rw [recommendCore_products_junk hres] at hrec
    simp at hrec
  | some prof =>
    rw [recommendCore_products_resolved hres] at hrec
    rcases mem_picksOf (dedupByKey_mem hrec) with h | h | h <;>
      (obtain ⟨prof2, hres2, p, hp, hs, rfl⟩ := tierPick_some_src h
       rw [mem_eligibleRows] at hp
       obtain ⟨hrows, hq, hpr, hle⟩ := hp
       exact ⟨p, hrows, rfl, rfl, rfl, rfl, hq, hpr, hle⟩)

/-- C7 witness: the office run over the single stock product returns a
recommendation whose price is that row's price, positive and within the
default ceiling. -/
theorem claim_C7_witness :
    ((recommendCore score0 [pPlain] bDefault).products.head?.getD defaultRec).price =
        pPlain.price ∧
      0 < ((recommendCore score0 [pPlain] bDefault).products.head?.getD
        defaultRec).price ∧
      ((recommendCore score0 [pPlain] bDefault).products.head?.getD
        defaultRec).price ≤ reqBudget bDefault := by
  obtain ⟨p, hp, hname, hprice, hsku, hurl, hq, hpos, hle⟩ :=
    claim_C7_eligible score0 [pPlain] bDefault
      ((recommendCore score0 [pPlain] bDefault).products.head?.getD defaultRec)
      (by decide)
  simp only [List.mem_singleton] at hp
  subst hp
  exact ⟨hprice, hpos, hle⟩

/-- C8: the final product list is the tier-ordered deduplication by the
composite sku/URL/name key: it has at most three entries, no two entries
share a key, and when one product's key wins all three tiers the list
collapses to the single `enough` (`十分`) pick. -/
theorem claim_C8_dedup (score : ScoreFn) (rows : List Product) (b : ReqBody) :
    (recommendCore score rows b).products.length ≤ 3 ∧
    (recommendCore score rows b).products.Pairwise
      (fun x y => recKey x ≠ recKey y) ∧
    (∀ r1 r2 r3,
      tierPick score rows b (centersOf b).enough "十分" = some r1 →
      tierPick score rows b (centersOf b).comfort "快適" = some r2 →
      tierPick score rows b (centersOf b).headroom "余裕" = some r3 →
      recKey r2 = recKey r1 → recKey r3 = recKey r1 →
      (recommendCore score rows b).products = [r1] ∧ r1.tier = "十分") := by
  refine ⟨?_, ?_, ?_⟩
  · cases hres : resolvedProfile b with
    | none =>
      rw [recommendCore_products_junk hres]
      simp
    | some prof =>
      rw [recommendCore_products_resolved hres]
      have h1 := (dedupByKey_sublist (picksOf score rows b) []).length_le
      have h2 : (picksOf score rows b).length ≤ 3 := by
        have h3 := List.length_filterMap_le
          (id : Option Recommendation → Option Recommendation)
          [tierPick score rows b (centersOf b).enough "十分",
           tierPick score rows b (centersOf b).comfort "快適",
           tierPick score rows b (centersOf b).headroom "余裕"]
        simpa [picksOf] using h3
      omega
  · cases hres : resolvedProfile b with
    | none =>
      rw [recommendCore_products_junk hres]
      exact List.Pairwise.nil
    | some prof =>
      rw [recommendCore_products_resolved hres]
      exact (dedupByKey_keys (picksOf score rows b) []).2
  · intro r1 r2 r3 h1 h2 h3 hk2 hk3
    obtain ⟨prof, hres, p, hp, hs, hbuild⟩ := tierPick_some_src h1
    constructor
    · rw [recommendCore_products_resolved hres]
      simp only [picksOf, h1, h2, h3, filterMap_id_three]
      simp [dedupByKey, hk2, hk3]
    · rw [hbuild]
      rfl

/-- Enough-tier pick of the single-product office run, used by the C8 witness. -/
def r1W : Recommendation :=
  (tierPick score0 [pPlain] bDefault (centersOf bDefault).enough "十分").getD
    defaultRec

/-- Comfort-tier pick of the single-product office run, used by the C8 witness. -/
def r2W : Recommendation :=
  (tierPick score0 [pPlain] bDefault (centersOf bDefault).comfort "快適").getD
    defaultRec

/-- Headroom-tier pick of the single-product office run, used by the C8 witness. -/
def r3W : Recommendation :=
  (tierPick score0 [pPlain] bDefault (centersOf bDefault).headroom "余裕").getD
    defaultRec

/-- C8 witness: one product wins all three tiers and the final list collapses
to a single entry labelled `十分`. -/
theorem claim_C8_witness :
    (recommendCore score0 [pPlain] bDefault).products = [r1W] ∧
      r1W.tier = "十分" :=
  (claim_C8_dedup score0 [pPlain] bDefault).2.2 r1W r2W r3W (by decide)
    (by decide) (by decide) (by decide) (by decide)

/-- C9: when the request's profile lookup resolved to a profile — the
setting in which the tiers run at all; a non-profile lookup instead throws
before any tier, see C4 — and the hard filter eliminates the whole eligible
pool, every tier pick is none, the final product list is empty, and the
response is still a success (`ok = true`), not an error. -/
theorem claim_C9_empty_success (score : ScoreFn) (rows : List Product)
    (b : ReqBody) (prof : UseCaseProfile)
    (hprof : resolvedProfile b = some prof)
    (h : ∀ p ∈ eligibleRows rows b, survives prof p = false) :
    (∀ center label, tierPick score rows b center label = none) ∧
    (recommendCore score rows b).products = [] ∧
    (recommendCore score rows b).ok = true := by
  have hnone : ∀ center label, tierPick score rows b center label = none := by
    intro center label
    simp only [tierPick, hprof]
    exact pickOne_none _ _ _ _ _ _ _ h
  refine ⟨hnone, ?_, ?_⟩
  · rw [recommendCore_products_resolved hprof]
    simp only [picksOf, hnone]
    rfl
  · simp only [recommendCore, hprof, Response.ok]

/-- C9 witness: the game use case over a catalog whose only (eligible) item
bears no GPU — every tier is none, the list is empty, and `ok` is true. -/
theorem claim_C9_witness :
    tierPick score0 [pPlain] bGame 10000 "十分" = none ∧
    (recommendCore score0 [pPlain] bGame).products = [] ∧
    (recommendCore score0 [pPlain] bGame).ok = true := by
  have h : ∀ p ∈ eligibleRows [pPlain] bGame,
      survives gameProfile p = false := by
    intro p hp
    rw [mem_eligibleRows] at hp
    obtain ⟨hrow, _⟩ := hp
    simp only [List.mem_singleton] at hrow
    subst hrow
    decide
  exact ⟨(claim_C9_empty_success score0 [pPlain] bGame gameProfile (by decide)
      h).1 10000 "十分",
    (claim_C9_empty_success score0 [pPlain] bGame gameProfile (by decide)
      h).2.1,
    (claim_C9_empty_success score0 [pPlain] bGame gameProfile (by decide)
      h).2.2⟩

/-- C10: for every profile and device preference and every truthy (nonzero)
ceiling, the `enough` center is at least 10000 (the clamp lower bound wins
when it exceeds the upper bound), so whenever `0 < budgetMax < 10000` all
three tier centers are at least 10000 and strictly exceed the ceiling. -/
theorem claim_C10_enough_floor (profile : UseCaseProfile) (dev : String)
    (budgetMax : Int) (h : budgetMax ≠ 0) :
    10000 ≤ (computeTargetBudget profile budgetMax dev).enough ∧
    (0 < budgetMax → budgetMax < 10000 →
      (10000 ≤ (computeTargetBudget profile budgetMax dev).comfort ∧
       10000 ≤ (computeTargetBudget profile budgetMax dev).headroom ∧
       budgetMax < (computeTargetBudget profile budgetMax dev).enough ∧
       budgetMax < (computeTargetBudget profile budgetMax dev).comfort ∧
       budgetMax < (computeTargetBudget profile budgetMax dev).headroom)) := by
  have he := enough_ge_floor profile budgetMax dev
  obtain ⟨h1, h2⟩ := tiers_mono profile budgetMax dev
  exact ⟨he, fun _ hlt => ⟨by omega, by omega, by omega, by omega, by omega⟩⟩

/-- C10 witness: the office profile with ceiling 5000 — every tier center is
at least 10000 and exceeds the ceiling. -/
theorem claim_C10_witness :
    10000 ≤ (computeTargetBudget officeProfile 5000 "any").enough ∧
      10000 ≤ (computeTargetBudget officeProfile 5000 "any").comfort ∧
      5000 < (computeTargetBudget officeProfile 5000 "any").headroom := by
  have h := claim_C10_enough_floor officeProfile "any" 5000 (by decide)
  exact ⟨h.1, (h.2 (by decide) (by decide)).1,
    (h.2 (by decide) (by decide)).2.2.2.2⟩
